import Mathlib

/-!
Shallow embedding of the deCONZ gateway client
(`homeassistant/components/dcz/__init__.py` and
`homeassistant/components/dcz/components.py`).

Python dicts are modelled as insertion-ordered association lists
(`dlookup` / `dinsert`), and the shared mutable state of `DeCONZApi`
(`self._devices`, `self._futures`) as an explicit `ApiState` record threaded
through each operation.  Awaiting a coroutine/future is modelled by an
environment (`Env`) that supplies the outcome of each suspension point:
`getDevice`/`getCollection` give the REST results (with `none` standing for
the `False` failure sentinel of `_req`) and `await` gives the outcome of the
bounded wait on a pending-discovery future (`none` standing for
`asyncio.TimeoutError`).  A function that can let a Python exception escape
returns an `Except`/`FindResult` with an explicit exception constructor.
-/

namespace DCZ

/-- JSON-ish scalar values appearing in device state maps. -/
inductive JVal where
  | jb (b : Bool)
  | jn (n : Nat)
  | js (s : String)
deriving DecidableEq, Repr

/-- A Python dict with string keys, as an insertion-ordered association list. -/
abbrev Dict (α : Type) := List (String × α)

/-- `state` sub-maps and other JSON objects of scalars. -/
abbrev StateMap := Dict JVal

/-- Dict lookup (`d.get(k)` / `k in d`): first (and, for a dict, only) match. -/
def dlookup {α : Type} : Dict α → String → Option α
  | [], _ => none
  | (k, v) :: rest, key => if k = key then some v else dlookup rest key

/-- Dict assignment `d[k] = v`: update in place if the key exists (keeping its
position, as Python dicts do), else append at the end. -/
def dinsert {α : Type} (key : String) (v : α) : Dict α → Dict α
  | [] => [(key, v)]
  | (k, w) :: rest =>
    if k = key then (k, v) :: rest else (k, w) :: dinsert key v rest

/-- `d.update(ev)`: fold dict assignment over the entries of `ev`. -/
def dictUpdate {α : Type} (m ev : Dict α) : Dict α :=
  ev.foldl (fun acc kv => dinsert kv.1 kv.2 acc) m

/-- A well-formed dict has no duplicate keys. -/
def keysNodup {α : Type} (m : Dict α) : Prop := (m.map Prod.fst).Nodup

instance {α : Type} (m : Dict α) : Decidable (keysNodup m) := by
  unfold keysNodup; infer_instance

theorem dlookup_dinsert_self {α : Type} (m : Dict α) (k : String) (v : α) :
    dlookup (dinsert k v m) k = some v := by
  induction m with
  | nil => simp [dinsert, dlookup]
  | cons hd tl ih =>
    obtain ⟨k', w⟩ := hd
    by_cases h : k' = k
    · simp [dinsert, dlookup, h]
    · simp [dinsert, dlookup, h, ih]

theorem dlookup_dinsert_ne {α : Type} (m : Dict α) {k key : String} (v : α)
    (h : k ≠ key) : dlookup (dinsert k v m) key = dlookup m key := by
  induction m with
  | nil => simp [dinsert, dlookup, h]
  | cons hd tl ih =>
    obtain ⟨k', w⟩ := hd
    by_cases hk : k' = k
    · subst hk
      simp [dinsert, dlookup, h, Ne.symm h]
    · by_cases hq : k' = key <;>
        simp [dinsert, dlookup, hk, hq, ih, Ne.symm h]

theorem dlookup_eq_none_of_not_mem_keys {α : Type} (m : Dict α) (key : String)
    (h : key ∉ m.map Prod.fst) : dlookup m key = none := by
  induction m with
  | nil => rfl
  | cons hd tl ih =>
    obtain ⟨k, v⟩ := hd
    simp only [List.map_cons, List.mem_cons] at h
    push_neg at h
    have hk : ¬ k = key := fun hk => h.1 hk.symm
    simp [dlookup, hk, ih h.2]

theorem dlookup_dictUpdate_of_none {α : Type} (m ev : Dict α) (key : String)
    (h : dlookup ev key = none) :
    dlookup (dictUpdate m ev) key = dlookup m key := by
  induction ev generalizing m with
  | nil => rfl
  | cons hd tl ih =>
    obtain ⟨k, v⟩ := hd
    simp only [dlookup] at h
    by_cases hk : k = key
    · simp [hk] at h
    · simp only [dictUpdate, List.foldl_cons] at *
      rw [ih (dinsert k v m) (by simpa [hk] using h)]
      exact dlookup_dinsert_ne m v hk

theorem dlookup_dictUpdate_of_some {α : Type} (m ev : Dict α) (key : String)
    (v : α) (hnd : keysNodup ev) (h : dlookup ev key = some v) :
    dlookup (dictUpdate m ev) key = some v := by
  induction ev generalizing m with
  | nil => simp [dlookup] at h
  | cons hd tl ih =>
    obtain ⟨k, w⟩ := hd
    simp only [keysNodup, List.map_cons, List.nodup_cons] at hnd
    by_cases hk : k = key
    · subst hk
      have hw : w = v := by simpa [dlookup] using h
      subst hw
      have hstep : dictUpdate m ((k, w) :: tl) = dictUpdate (dinsert k w m) tl := rfl
      rw [hstep, dlookup_dictUpdate_of_none _ _ _
        (dlookup_eq_none_of_not_mem_keys _ _ hnd.1)]
      exact dlookup_dinsert_self m k w
    · have h' : dlookup tl key = some v := by simpa [dlookup, hk] using h
      have hstep : dictUpdate m ((k, w) :: tl) = dictUpdate (dinsert k w m) tl := rfl
      rw [hstep]
      exact ih (dinsert k w m) hnd.2 h'

/-- A live device entity, as far as the registry is concerned: `Entity.__init__`
stores `self.id` (the bridge device id) and `self.uid` (the `uniqueid`). -/
structure Handle where
  id : String
  uid : String
deriving DecidableEq, Repr

/-- The bridge's raw JSON record for one device: the fields the core reads.
An `Option` field is `none` when the key is absent from the record. -/
structure RawDevice where
  uniqueid : Option String
  modelid : Option String
  type : Option String
  state : StateMap
deriving DecidableEq, Repr

/-- The slice of the validated configuration the core reads:
`config[DOMAIN][CONF_DEVICE_CONFIG]`, a dict from uniqueid to a per-device
node config whose only field is the optional `CONF_TYPE` override. -/
structure Config where
  deviceConfig : Dict (Option String)

/-- Python `s.startswith(p)` on the underlying character lists. -/
def listStartsWith : List Char → List Char → Bool
  | _, [] => true
  | [], _ :: _ => false
  | c :: cs, d :: ds => (c = d) && listStartsWith cs ds

/-- Python `s.startswith(p)`. -/
def strStartsWith (s p : String) : Bool := listStartsWith s.data p.data

/-- The light `type` strings recognised by `components.component`. -/
def lightTypes : List String :=
  ["Extended color light", "Color light", "Dimmable light",
   "Color temperature light"]

/-- The fallthrough part of `components.component` after the config override:
the `dclass == 'sensors'` / `elif dclass == 'lights'` branches.  A branch that
falls off the end of the Python function returns `None`, i.e. `none`. -/
def componentDefault (dclass : String) (device : RawDevice) : Option String :=
  if dclass = "sensors" then
    if device.modelid = some "lumi.sensor_magnet" then some "binary_sensor"
    else none
  else if dclass = "lights" then
    match device.type with
    | some t =>
      if t ∈ lightTypes then some "light"
      else
        match device.modelid with
        | some m => if strStartsWith m "TRADFRI bulb" then some "light" else none
        | none => none
    | none =>
      match device.modelid with
      | some m => if strStartsWith m "TRADFRI bulb" then some "light" else none
      | none => none
  else none

/-- `components.component(config, dclass, device)`: the per-uniqueid config
override has precedence when the device has a `uniqueid`, its node config
exists and carries a `CONF_TYPE`; otherwise fall through to the
dclass-specific classification. -/
def component (cfg : Config) (dclass : String) (device : RawDevice) :
    Option String :=
  match device.uniqueid with
  | some uid =>
    match dlookup cfg.deviceConfig uid with
    | some (some t) => some t
    | _ => componentDefault dclass device
  | none => componentDefault dclass device

/-- One per-dclass registry dict `self._devices[dclass]`: device id mapsto
`None` (pending, no handle yet) or a live `Handle`. -/
abbrev DeviceMap := Dict (Option Handle)

/-- The mutable state of `DeCONZApi` the claims are about: `self._devices`
(the registry) and the key set of `self._futures` (the pending-discovery
table, keyed by uniqueid). -/
structure ApiState where
  devices : Dict DeviceMap
  futures : List String
deriving DecidableEq, Repr

/-- `if dclass not in self._devices: self._devices[dclass] = {}`. -/
def ensureClass (st : ApiState) (dclass : String) : ApiState :=
  match dlookup st.devices dclass with
  | some _ => st
  | none => { st with devices := dinsert dclass [] st.devices }

/-- Registry lookup: `none` when either the dclass dict or the id key is
absent; `some none` is a pending entry; `some (some h)` a live one. -/
def lookupEntry (st : ApiState) (dclass id : String) : Option (Option Handle) :=
  (dlookup st.devices dclass).bind (fun m => dlookup m id)

/-- `self._devices[dclass][id] = e` (the dclass dict existing already or
created empty on the fly, as the call sites ensure). -/
def setEntry (st : ApiState) (dclass id : String) (e : Option Handle) :
    ApiState :=
  let m := (dlookup st.devices dclass).getD []
  { st with devices := dinsert dclass (dinsert id e m) st.devices }

/-- `DeCONZApi.register_device(dclass, obj)`.  Returns the new state and
whether the handle was stored (`false` = the "Duplicate init" warn-and-return
path).  The duplicate check is `self._devices[dclass].get(obj.id) is not
None`, so only a live entry blocks; an absent or pending entry is written.
Storing resolves and removes a pending future for `obj.uid`, if any. -/
def register_device (st : ApiState) (dclass : String) (obj : Handle) :
    ApiState × Bool :=
  let st := ensureClass st dclass
  match lookupEntry st dclass obj.id with
  | some (some _) => (st, false)
  | _ =>
    let st := setEntry st dclass obj.id (some obj)
    if obj.uid ∈ st.futures then
      ({ st with futures := st.futures.erase obj.uid }, true)
    else (st, true)

/-- Outcomes the environment supplies at the suspension points of the client:
REST results (`none` = the `False` sentinel of `_req`) and the outcome of the
bounded wait on a pending-discovery future (`none` = `asyncio.TimeoutError`;
`some h` = some platform-setup task called `register_device` with `h`, which
set the future's result). -/
structure Env where
  getDevice : String → String → Option RawDevice
  getCollection : String → Option (Dict RawDevice)
  await : String → Option Handle

/-- The argument tuple the discovery paths hand to
`discovery.async_load_platform(hass, comp, DOMAIN, (kind, id, device),
config)`: component type plus the `(kind, id, device)` discovery info. -/
structure SetupCall where
  comp : String
  kind : String
  id : String
  device : RawDevice
deriving DecidableEq, Repr

/-- Value returned by `_find_unknown_device`: `ok none` for the falsy returns
(`None` for a missing argument, `False` when unclassifiable or timed out),
`ok (some h)` for a resolved handle, `exn` when a Python exception escapes
(caught later at the router boundary). -/
inductive FindResult where
  | ok (h : Option Handle)
  | exn
deriving DecidableEq, Repr

/-- `DeCONZApi._find_unknown_device(dclass, device_id)`.  Returns the state as
mutated by this coroutine itself (a concurrent `register_device` from the
spawned platform setup is modelled separately), the returned value, and the
setup call handed to `async_load_platform`, if any.  Faithful renderings of
the source's quirks: the registry entry is set to pending *before* fetching
and classifying and is never cleaned up on any failure path; a failed GET
makes `component` evaluate `'uniqueid' in False`, raising `TypeError`
(`exn`); the discovery-info tuple hardcodes the literal `'sensors'` as its
first element; on a wait timeout the future is *not* removed from
`self._futures`. -/
def find_unknown_device (env : Env) (cfg : Config) (st : ApiState)
    (dclass device_id : String) : ApiState × FindResult × Option SetupCall :=
  if dclass = "" ∨ device_id = "" then (st, .ok none, none)
  else
    let st := ensureClass st dclass
    let st := setEntry st dclass device_id none
    match env.getDevice dclass device_id with
    | none => (st, .exn, none)
    | some device =>
      match component cfg dclass device with
      | none => (st, .ok none, none)
      | some comp =>
        match device.uniqueid with
        | none => (st, .exn, none)
        | some uid =>
          if uid ∈ st.futures then
            match env.await uid with
            | some h => (st, .ok (some h), none)
            | none => (st, .ok none, none)
          else
            let st := { st with futures := st.futures ++ [uid] }
            let call : SetupCall := ⟨comp, "sensors", device_id, device⟩
            match env.await uid with
            | some h => (st, .ok (some h), some call)
            | none => (st, .ok none, some call)

/-- A decoded websocket frame: the keys `_ws_handle_message` and
`Entity.handle_message` read.  An `Option` field is `none` when the key is
absent from the JSON object. -/
structure Message where
  r : Option String
  id : Option String
  config : Option StateMap
  e : Option String
  state : Option StateMap
deriving DecidableEq, Repr

/-- What `_ws_handle_message` did with a frame: dropped it as malformed
(missing `r` or `id`), discarded it ("Unable to determine device"), delivered
it to a handle's `handle_message`, or caught an escaped exception at the
router boundary (`except Exception`). -/
inductive RouteResult where
  | malformed
  | discarded
  | delivered (h : Handle) (m : Message)
  | errorCaught
deriving DecidableEq, Repr

/-- `DeCONZApi._ws_handle_message(message)`.  The fast path reads the registry
entry; `if not device` discards pending (`None`) entries and falsy discovery
results; otherwise the frame — including the very frame that triggered
discovery — is passed to `device.handle_message`. -/
def ws_handle_message (env : Env) (cfg : Config) (st : ApiState)
    (m : Message) : ApiState × RouteResult × Option SetupCall :=
  match m.r with
  | none => (st, .malformed, none)
  | some dclass =>
    match m.id with
    | none => (st, .malformed, none)
    | some device_id =>
      match lookupEntry st dclass device_id with
      | some (some h) => (st, .delivered h m, none)
      | some none => (st, .discarded, none)
      | none =>
        match find_unknown_device env cfg st dclass device_id with
        | (st', .exn, call) => (st', .errorCaught, call)
        | (st', .ok none, call) => (st', .discarded, call)
        | (st', .ok (some h), call) => (st', .delivered h m, call)

/-- `Entity.handle_message(message)` acting on the entity's `self._state`
dict.  `none` is the `KeyError` raised by `message['state']` when a
`changed` event carries no `state` key (caught at the router boundary). -/
def handle_message (state : StateMap) (m : Message) : Option StateMap :=
  match m.config with
  | some c =>
    match dlookup c "battery" with
    | some b => some (dinsert "battery_level" b state)
    | none => some state
  | none =>
    match m.e with
    | some e =>
      if e = "changed" then
        match m.state with
        | some evState => some (dictUpdate state evState)
        | none => none
      else some state
    | none => some state

/-- The inner loop of one `refresher_task` pass over one dclass: for each
`(device_id, device)` of the fetched collection, ids already present in
`self._devices[dclass]` (live *or* pending) are skipped; new ids are set
pending and, when classifiable, produce a setup call carrying the actual
`dclass`. -/
def refresh_fold (cfg : Config) (st : ApiState) (dclass : String)
    (devs : Dict RawDevice) : ApiState × List SetupCall :=
  devs.foldl
    (fun acc kv =>
      match lookupEntry acc.1 dclass kv.1 with
      | some _ => acc
      | none =>
        let st' := setEntry acc.1 dclass kv.1 none
        match component cfg dclass kv.2 with
        | some comp => (st', acc.2 ++ [⟨comp, dclass, kv.1, kv.2⟩])
        | none => (st', acc.2))
    (st, [])

/-- One dclass iteration of `DeCONZApi.refresher_task`.  When
`self.get(dclass)` returns the `False` failure sentinel, the unguarded
`devices.items()` raises `AttributeError` (`'bool' object has no attribute
'items'`), which escapes the task: modelled as `Except.error`. -/
def refresh_step (env : Env) (cfg : Config) (st : ApiState) (dclass : String) :
    Except Unit (ApiState × List SetupCall) :=
  let st := ensureClass st dclass
  match env.getCollection dclass with
  | none => .error ()
  | some devs => .ok (refresh_fold cfg st dclass devs)

/-- Outcome of one HTTP request attempt, as seen inside `_req`'s `try`. -/
inductive HttpOutcome where
  | resp (status : Nat) (body : StateMap)
  | clientError
  | timeout
deriving DecidableEq, Repr

/-- Value returned by `DeCONZApi._req`: the decoded body, or the single
`False` sentinel. -/
inductive ReqResult where
  | success (body : StateMap)
  | sentinelFalse
deriving DecidableEq, Repr

/-- `DeCONZApi._req(action, node, data)`: `response.status != 200` logs and
returns `False`; `asyncio.TimeoutError` and `aiohttp.ClientError` are caught
and return `False`; otherwise the decoded JSON body is returned. -/
def req (o : HttpOutcome) : ReqResult :=
  match o with
  | .resp status body =>
    if status ≠ 200 then .sentinelFalse else .success body
  | .clientError => .sentinelFalse
  | .timeout => .sentinelFalse

/-- The ways one pass of `_ws_listener`'s outer `while not self._dying` loop
can fail. -/
inductive WsFailure where
  | pongTimeout
  | wsException
  | connectException
deriving DecidableEq, Repr

/-- Suspension-relevant actions of `_ws_listener` between a failure and the
next `websockets.connect` attempt. -/
inductive LAction where
  | closeSocket
  | connectAttempt
  | awaitSleep (units : Nat)
  | orphanSleep (units : Nat)
deriving DecidableEq, Repr

/-- Transcription of `_ws_listener`'s failure paths, from the failure point
to the next connection attempt of the outer loop.  The pong-timeout path
executes `break`, which leaves the inner loop without entering the `except`
branch, so no sleep at all separates it from the reconnect; the exception
paths call `asyncio.sleep(5)` without `yield from`, creating a coroutine
that is never awaited (`orphanSleep`), so no delay is awaited there either.
(The `finally: yield from socket.close()` also raises `UnboundLocalError`
when the very first handshake fails, since `socket` was never bound; the
trace below models the iterations where `socket` is bound.) -/
def ws_listener_after_failure (f : WsFailure) : List LAction :=
  match f with
  | .pongTimeout => [.closeSocket, .connectAttempt]
  | .wsException => [.orphanSleep 5, .closeSocket, .connectAttempt]
  | .connectException => [.orphanSleep 5, .closeSocket, .connectAttempt]

/-- Empty configuration: no per-device type overrides. -/
def cfg0 : Config := ⟨[]⟩

/-- A door-sensor record the classifier maps to `binary_sensor`. -/
def magnetDevice : RawDevice :=
  { uniqueid := some "00:15:8d:00:01", modelid := some "lumi.sensor_magnet",
    type := none, state := [] }

/-- A dimmable-light record the classifier maps to `light`. -/
def lightDevice : RawDevice :=
  { uniqueid := some "00:17:88:01:02", modelid := some "LCT001",
    type := some "Dimmable light", state := [] }

/-- A record the classifier rejects (`component` returns `none`). -/
def unsupportedDevice : RawDevice :=
  { uniqueid := some "00:aa:bb:cc", modelid := some "unknown.model",
    type := none, state := [] }

/-- The handle the light platform would register for `lightDevice`. -/
def hLight : Handle := ⟨"1", "00:17:88:01:02"⟩

/-- Fresh client state: empty registry, empty pending-discovery table. -/
def st0 : ApiState := ⟨[], []⟩

/-- Environment: GET succeeds with `lightDevice`; the discovery wait resolves
with `hLight` (platform setup registered it within the bound). -/
def envLightOk : Env :=
  ⟨fun _ _ => some lightDevice, fun _ => none, fun _ => some hLight⟩

/-- Environment: GET succeeds with `magnetDevice`; the discovery wait times
out. -/
def envMagnetTimeout : Env :=
  ⟨fun _ _ => some magnetDevice, fun _ => none, fun _ => none⟩

/-- Environment: GETs return `unsupportedDevice` (and a collection holding it
under id "7"); any wait times out. -/
def envUnsupported : Env :=
  ⟨fun _ _ => some unsupportedDevice,
   fun _ => some [("7", unsupportedDevice)], fun _ => none⟩

/-- Environment in which every REST request fails with the `False` sentinel. -/
def envCollectionFail : Env :=
  ⟨fun _ _ => none, fun _ => none, fun _ => none⟩

/-- A `state changed` frame for lights/1. -/
def msgLight : Message :=
  { r := some "lights", id := some "1", config := none,
    e := some "changed", state := some [] }

/-- A `state changed` frame for sensors/7. -/
def msgUnsupported : Message :=
  { r := some "sensors", id := some "7", config := none,
    e := some "changed", state := some [] }

theorem futures_ensureClass (st : ApiState) (dclass : String) :
    (ensureClass st dclass).futures = st.futures := by
  unfold ensureClass
  cases dlookup st.devices dclass <;> rfl

theorem lookupEntry_setEntry_self (st : ApiState) (dclass id : String)
    (e : Option Handle) :
    lookupEntry (setEntry st dclass id e) dclass id = some e := by
  simp [lookupEntry, setEntry, dlookup_dinsert_self]

theorem ensureClass_of_lookup (st : ApiState) (dclass : String)
    (m : DeviceMap) (h : dlookup st.devices dclass = some m) :
    ensureClass st dclass = st := by
  simp [ensureClass, h]

/-- Evaluation of `_find_unknown_device` when the fetched record is not
classifiable: the falsy `result` is returned, no setup is started, and the
only mutation is the pending registry entry written before classification. -/
theorem find_unknown_device_unclassifiable_eval (env : Env) (cfg : Config)
    (st : ApiState) (dclass device_id : String) (device : RawDevice)
    (h0 : ¬(dclass = "" ∨ device_id = ""))
    (hget : env.getDevice dclass device_id = some device)
    (hcomp : component cfg dclass device = none) :
    find_unknown_device env cfg st dclass device_id =
      (setEntry (ensureClass st dclass) dclass device_id none, .ok none,
       none) := by
  simp [find_unknown_device, h0, hget, hcomp]

/-- Evaluation of `_find_unknown_device` when classification succeeds and the
discovery wait times out. -/
theorem find_unknown_device_timeout_eval (env : Env) (cfg : Config)
    (st : ApiState) (dclass device_id : String) (device : RawDevice)
    (uid comp : String) (h0 : ¬(dclass = "" ∨ device_id = ""))
    (hget : env.getDevice dclass device_id = some device)
    (hcomp : component cfg dclass device = some comp)
    (huid : device.uniqueid = some uid)
    (htimeout : env.await uid = none) :
    find_unknown_device env cfg st dclass device_id =
      (if uid ∈ st.futures then
        (setEntry (ensureClass st dclass) dclass device_id none, .ok none,
         none)
       else
        ({ setEntry (ensureClass st dclass) dclass device_id none with
            futures := st.futures ++ [uid] }, .ok none,
         some ⟨comp, "sensors", device_id, device⟩)) := by
  have hfut : (setEntry (ensureClass st dclass) dclass device_id none).futures
      = st.futures := futures_ensureClass st dclass
  by_cases hmem : uid ∈ st.futures <;>
    simp [find_unknown_device, h0, hget, hcomp, huid, htimeout, hfut, hmem]

/-- C1: at most one live registry entry per (kind, id): calling
`register_device` when the registry already holds a live handle for
(kind, obj.id) is a warn-and-no-op — the state is returned completely
unchanged (so the existing handle stays in place and is never overwritten)
and nothing is stored. -/
theorem register_device_duplicate_noop (st : ApiState) (dclass : String)
    (obj h : Handle)
    (hlive : lookupEntry st dclass obj.id = some (some h)) :
    register_device st dclass obj = (st, false) := by
  have hb := hlive
  simp only [lookupEntry] at hb
  obtain ⟨m, hm, -⟩ := Option.bind_eq_some.mp hb
  simp [register_device, ensureClass_of_lookup st dclass m hm, hlive]

/-- Witness for C1 at a registry holding a live handle for lights/1. -/
theorem register_device_duplicate_noop_witness :
    register_device ⟨[("lights", [("1", some hLight)])], []⟩ "lights"
      ⟨"1", "x"⟩ = (⟨[("lights", [("1", some hLight)])], []⟩, false) :=
  register_device_duplicate_noop ⟨[("lights", [("1", some hLight)])], []⟩
    "lights" ⟨"1", "x"⟩ hLight (by decide)

/-- C2 counterexample: a discovery wait for sensors/2 that times out returns
the falsy result but leaves the uniqueid's slot in the pending-discovery
table and leaves the registry entry pending (`None`) — refuting the claim
that the slot is removed and the entry left absent. -/
theorem discovery_timeout_keeps_slot_cex :
    (find_unknown_device envMagnetTimeout cfg0 st0 "sensors" "2").2.1 =
      .ok none ∧
    "00:15:8d:00:01" ∈
      (find_unknown_device envMagnetTimeout cfg0 st0 "sensors" "2").1.futures ∧
    lookupEntry (find_unknown_device envMagnetTimeout cfg0 st0 "sensors" "2").1
      "sensors" "2" = some none := by decide

/-- C2 amended: when a discovery wait exceeds its bound,
`_find_unknown_device` returns the failure value, but the pending slot for
the uniqueid remains in the PendingDiscovery table and the registry entry for
(kind, id) remains pending (not absent), so later events and refresh cycles
do not retry discovery for it. -/
theorem discovery_timeout_keeps_pending_slot (env : Env) (cfg : Config)
    (st : ApiState) (dclass device_id : String) (device : RawDevice)
    (uid comp : String) (hdc : dclass ≠ "") (hid : device_id ≠ "")
    (hget : env.getDevice dclass device_id = some device)
    (hcomp : component cfg dclass device = some comp)
    (huid : device.uniqueid = some uid)
    (htimeout : env.await uid = none) :
    (find_unknown_device env cfg st dclass device_id).2.1 = .ok none ∧
    uid ∈ (find_unknown_device env cfg st dclass device_id).1.futures ∧
    lookupEntry (find_unknown_device env cfg st dclass device_id).1
      dclass device_id = some none := by
  have h0 : ¬ (dclass = "" ∨ device_id = "") := by
    push_neg
    exact ⟨hdc, hid⟩
  rw [find_unknown_device_timeout_eval env cfg st dclass device_id device uid
    comp h0 hget hcomp huid htimeout]
  by_cases hmem : uid ∈ st.futures
  · refine ⟨by simp [if_pos hmem], ?_, ?_⟩
    · simpa [if_pos hmem, setEntry, futures_ensureClass] using hmem
    · simp only [if_pos hmem]
      exact lookupEntry_setEntry_self _ _ _ _
  · refine ⟨by simp [if_neg hmem], ?_, ?_⟩
    · simp [if_neg hmem]
    · simp only [if_neg hmem]
      exact lookupEntry_setEntry_self _ _ _ _

/-- Witness for the amended C2 on a concrete timed-out discovery. -/
theorem discovery_timeout_keeps_pending_slot_witness :
    (find_unknown_device envMagnetTimeout cfg0 st0 "sensors" "3").2.1 =
      .ok none ∧
    "00:15:8d:00:01" ∈
      (find_unknown_device envMagnetTimeout cfg0 st0 "sensors" "3").1.futures ∧
    lookupEntry (find_unknown_device envMagnetTimeout cfg0 st0 "sensors" "3").1
      "sensors" "3" = some none :=
  discovery_timeout_keeps_pending_slot envMagnetTimeout cfg0 st0 "sensors" "3"
    magnetDevice "00:15:8d:00:01" "binary_sensor" (by decide) (by decide)
    rfl (by decide) rfl rfl

/-- C3 counterexample: for a websocket event that triggers discovery of
lights/1 and whose discovery succeeds, the router's result is that the very
same triggering event is delivered to the fresh handle's `handle_message` —
refuting the claim that the original event is not replayed. -/
theorem discovery_event_replayed_cex :
    (ws_handle_message envLightOk cfg0 st0 msgLight).2.1 =
      RouteResult.delivered hLight msgLight := by decide

/-- C3 amended: for every websocket event that triggers discovery and whose
discovery succeeds, `_ws_handle_message` delivers the original triggering
event to the newly created handle's `handle_message`. -/
theorem discovery_success_delivers_triggering_event (env : Env) (cfg : Config)
    (st st' : ApiState) (m : Message) (dclass device_id : String)
    (h : Handle) (call : Option SetupCall)
    (hr : m.r = some dclass) (hid : m.id = some device_id)
    (habsent : lookupEntry st dclass device_id = none)
    (hfind : find_unknown_device env cfg st dclass device_id =
      (st', .ok (some h), call)) :
    ws_handle_message env cfg st m = (st', .delivered h m, call) := by
  simp [ws_handle_message, hr, hid, habsent, hfind]

/-- Witness for the amended C3 on a concrete successful discovery. -/
theorem discovery_success_delivers_triggering_event_witness :
    ws_handle_message envLightOk cfg0 st0 msgLight =
      (⟨[("lights", [("1", none)])], ["00:17:88:01:02"]⟩,
       .delivered hLight msgLight,
       some ⟨"light", "sensors", "1", lightDevice⟩) :=
  discovery_success_delivers_triggering_event envLightOk cfg0 st0
    ⟨[("lights", [("1", none)])], ["00:17:88:01:02"]⟩ msgLight "lights" "1"
    hLight (some ⟨"light", "sensors", "1", lightDevice⟩) rfl rfl rfl
    (by decide)

/-- C4 (code bug): in an iteration where the GET of a device-kind collection
fails (the transport returns the `False` sentinel), `refresher_task`'s
unguarded `devices.items()` raises `AttributeError`, which escapes the
coroutine and terminates the refresh loop instead of letting it proceed to
the next iteration. -/
theorem refresh_step_failed_get_raises :
    refresh_step envCollectionFail cfg0 st0 "sensors" = .error () := rfl

/-- Bool-valued test for the backoff action of the listener trace. -/
def LAction.isAwaitSleep : LAction → Bool
  | .awaitSleep _ => true
  | _ => false

/-- C5 (code bug): on the websocket failure paths no backoff sleep is ever
awaited before the next connection attempt: the pong-timeout path `break`s
straight past the `except` branch to reconnection, and the exception path
only creates the `asyncio.sleep(5)` coroutine without `yield from`-ing it
(despite logging "Sleeping 5s and retrying."). -/
theorem ws_listener_no_backoff_awaited :
    (ws_listener_after_failure .pongTimeout).all
      (fun a => ! a.isAwaitSleep) = true ∧
    (ws_listener_after_failure .wsException).all
      (fun a => ! a.isAwaitSleep) = true ∧
    ws_listener_after_failure .pongTimeout =
      [.closeSocket, .connectAttempt] ∧
    LAction.orphanSleep 5 ∈ ws_listener_after_failure .wsException := by
  decide

/-- C6 (code bug): discovering an unregistered light via the websocket path
hands the setup sink a discovery tuple whose kind element is the hardcoded
literal "sensors", not the actual DeviceKind "lights"; the refresher path,
by contrast, passes the real `dclass` for the same device. -/
theorem find_unknown_device_hardcodes_sensors_kind :
    (find_unknown_device envLightOk cfg0 st0 "lights" "1").2.2 =
      some ⟨"light", "sensors", "1", lightDevice⟩ ∧
    ("sensors" : String) ≠ "lights" ∧
    refresh_fold cfg0 (ensureClass st0 "lights") "lights"
      [("1", lightDevice)] =
      (setEntry (ensureClass st0 "lights") "lights" "1" none,
       [⟨"light", "lights", "1", lightDevice⟩]) := by decide

/-- C7 counterexample: status 201 is a 2xx status — none of the claim's
three failure kinds — yet `_req` returns the `False` sentinel rather than
the decoded body, because the code's failure condition is
`response.status != 200`, not "non-2xx". -/
theorem req_status_201_cex :
    200 ≤ 201 ∧ 201 < 300 ∧ req (.resp 201 []) = .sentinelFalse ∧
    req (.resp 201 []) ≠ .success [] := by decide

/-- C7 amended: `_req` returns the decoded body exactly on status 200, and
the single `False` sentinel (propagating no exception) on any non-200
status, on client-level transport failure, and on timeout. -/
theorem req_success_only_status_200 :
    (∀ body : StateMap, req (.resp 200 body) = .success body) ∧
    (∀ (s : Nat) (body : StateMap), s ≠ 200 →
      req (.resp s body) = .sentinelFalse) ∧
    req .clientError = .sentinelFalse ∧ req .timeout = .sentinelFalse :=
  ⟨fun body => by simp [req], fun s body hs => by simp [req, hs], rfl, rfl⟩

/-- Witness for the amended C7 at statuses 404 and 200. -/
theorem req_success_only_status_200_witness :
    req (.resp 404 []) = .sentinelFalse ∧ req (.resp 200 []) = .success [] :=
  ⟨req_success_only_status_200.2.1 404 [] (by decide),
   req_success_only_status_200.1 []⟩

/-- C8 counterexample: routing an event for the unclassifiable sensors/7
creates a pending registry entry (`lookupEntry` yields `some none`
afterwards), refuting the claim that the entry stays absent; the
pending-discovery table, by contrast, indeed stays empty. -/
theorem classifier_none_marks_pending_cex :
    lookupEntry (ws_handle_message envUnsupported cfg0 st0 msgUnsupported).1
      "sensors" "7" = some none ∧
    (ws_handle_message envUnsupported cfg0 st0 msgUnsupported).1.futures =
      [] ∧
    (ws_handle_message envUnsupported cfg0 st0 msgUnsupported).2.1 =
      RouteResult.discarded := by decide

/-- C8 amended: when the classifier returns `none` for a fetched device
record, routing that device's event discards the event and creates no
pending-discovery slot, but the registry entry for (kind, id) is set to
pending (not left absent) — by the event path and by the refresh path
alike. -/
theorem classifier_none_no_slot_but_pending_entry (env : Env) (cfg : Config)
    (st : ApiState) (m : Message) (dclass device_id : String)
    (device : RawDevice)
    (hr : m.r = some dclass) (hid : m.id = some device_id)
    (hdc : dclass ≠ "") (hne : device_id ≠ "")
    (habsent : lookupEntry st dclass device_id = none)
    (hget : env.getDevice dclass device_id = some device)
    (hcomp : component cfg dclass device = none) :
    ws_handle_message env cfg st m =
      (setEntry (ensureClass st dclass) dclass device_id none, .discarded,
       none) ∧
    (setEntry (ensureClass st dclass) dclass device_id none).futures =
      st.futures ∧
    lookupEntry (setEntry (ensureClass st dclass) dclass device_id none)
      dclass device_id = some none ∧
    refresh_fold cfg st dclass [(device_id, device)] =
      (setEntry st dclass device_id none, []) := by
  have h0 : ¬ (dclass = "" ∨ device_id = "") := by
    push_neg
    exact ⟨hdc, hne⟩
  have heval := find_unknown_device_unclassifiable_eval env cfg st dclass
    device_id device h0 hget hcomp
  refine ⟨?_, futures_ensureClass st dclass, ?_, ?_⟩
  · simp [ws_handle_message, hr, hid, habsent, heval]
  · exact lookupEntry_setEntry_self _ _ _ _
  · simp [refresh_fold, habsent, hcomp]

/-- Witness for the amended C8 on the concrete unsupported sensors/7. -/
theorem classifier_none_no_slot_but_pending_entry_witness :
    ws_handle_message envUnsupported cfg0 st0 msgUnsupported =
      (setEntry (ensureClass st0 "sensors") "sensors" "7" none, .discarded,
       none) ∧
    (setEntry (ensureClass st0 "sensors") "sensors" "7" none).futures =
      st0.futures ∧
    lookupEntry (setEntry (ensureClass st0 "sensors") "sensors" "7" none)
      "sensors" "7" = some none ∧
    refresh_fold cfg0 st0 "sensors" [("7", unsupportedDevice)] =
      (setEntry st0 "sensors" "7" none, []) :=
  classifier_none_no_slot_but_pending_entry envUnsupported cfg0 st0
    msgUnsupported "sensors" "7" unsupportedDevice rfl rfl (by decide)
    (by decide) rfl rfl (by decide)

/-- C9: `handle_message` on a `state changed` event (no `config` key,
`e = "changed"`) performs a shallow, last-writer-wins merge of the event's
`state` sub-map into the handle's state: every field present in the event
takes the event's value, and every field absent from the event is left
untouched. -/
theorem handle_message_changed_shallow_merge (state evState : StateMap)
    (m : Message) (hc : m.config = none) (he : m.e = some "changed")
    (hs : m.state = some evState) (hnd : keysNodup evState) :
    handle_message state m = some (dictUpdate state evState) ∧
    (∀ k v, dlookup evState k = some v →
      dlookup (dictUpdate state evState) k = some v) ∧
    (∀ k, dlookup evState k = none →
      dlookup (dictUpdate state evState) k = dlookup state k) := by
  refine ⟨by simp [handle_message, hc, he, hs], ?_, ?_⟩
  · exact fun k v hkv => dlookup_dictUpdate_of_some state evState k v hnd hkv
  · exact fun k hk => dlookup_dictUpdate_of_none state evState k hk

/-- A prior handle state for the round-trip example of C9. -/
def demoPrior : StateMap := [("on", .jb false), ("bri", .jn 50), ("ct", .jn 300)]

/-- The event's `state` sub-map for the round-trip example of C9. -/
def demoEv : StateMap := [("on", .jb true), ("bri", .jn 120)]

/-- The `state changed` frame for the round-trip example of C9. -/
def demoChangedMsg : Message :=
  { r := some "lights", id := some "1", config := none, e := some "changed",
    state := some demoEv }

/-- Witness for C9: the spec's round trip — merging
`{"on": true, "bri": 120}` into `{"on": false, "bri": 50, "ct": 300}`
yields `{"on": true, "bri": 120, "ct": 300}`. -/
theorem handle_message_changed_shallow_merge_witness :
    handle_message demoPrior demoChangedMsg =
      some [("on", JVal.jb true), ("bri", JVal.jn 120), ("ct", JVal.jn 300)] :=
  ((handle_message_changed_shallow_merge demoPrior demoEv demoChangedMsg
    rfl rfl rfl (by decide)).1).trans (by decide)

/-- C10: a pending registry entry is absorbed by every path except
`register_device`: a websocket event for a pending (kind, id) is discarded
with no state change, no discovery and no setup call; the refresh loop skips
an id already present in the registry; and `register_device` is the
operation that transitions the pending entry to live. -/
theorem pending_entry_absorbs_events_and_refresh (env : Env) (cfg : Config)
    (st : ApiState) (m : Message) (dclass device_id : String)
    (hr : m.r = some dclass) (hid : m.id = some device_id)
    (hpend : lookupEntry st dclass device_id = some none) :
    ws_handle_message env cfg st m = (st, .discarded, none) ∧
    (∀ device : RawDevice,
      refresh_fold cfg st dclass [(device_id, device)] = (st, [])) ∧
    (∀ obj : Handle, obj.id = device_id →
      lookupEntry (register_device st dclass obj).1 dclass device_id =
        some (some obj) ∧
      (register_device st dclass obj).2 = true) := by
  have hb := hpend
  simp only [lookupEntry] at hb
  obtain ⟨dm, hdm, -⟩ := Option.bind_eq_some.mp hb
  refine ⟨by simp [ws_handle_message, hr, hid, hpend], ?_, ?_⟩
  · intro device
    simp [refresh_fold, hpend]
  · intro obj hobj
    have hens := ensureClass_of_lookup st dclass dm hdm
    have hl : lookupEntry st dclass obj.id = some none := hobj ▸ hpend
    by_cases hmem : obj.uid ∈ (setEntry st dclass obj.id (some obj)).futures
    · simp only [register_device, hens, hl, hmem, if_pos hmem]
      constructor
      · show lookupEntry
          { setEntry st dclass obj.id (some obj) with
            futures := (setEntry st dclass obj.id (some obj)).futures.erase
              obj.uid } dclass device_id = some (some obj)
        rw [← hobj]
        exact lookupEntry_setEntry_self st dclass obj.id (some obj)
      · rfl
    · simp only [register_device, hens, hl, hmem, if_neg hmem]
      constructor
      · rw [← hobj]
        exact lookupEntry_setEntry_self st dclass obj.id (some obj)
      · rfl

/-- Witness for C10: a pending sensors/9 entry absorbs an event for it. -/
theorem pending_entry_absorbs_events_and_refresh_witness :
    ws_handle_message envUnsupported cfg0
      ⟨[("sensors", [("9", none)])], []⟩
      { r := some "sensors", id := some "9", config := none,
        e := some "changed", state := some [] } =
      (⟨[("sensors", [("9", none)])], []⟩, .discarded, none) :=
  (pending_entry_absorbs_events_and_refresh envUnsupported cfg0
    ⟨[("sensors", [("9", none)])], []⟩
    { r := some "sensors", id := some "9", config := none,
      e := some "changed", state := some [] } "sensors" "9" rfl rfl
    (by decide)).1

end DCZ
